import Mathlib

/-!
Verification of the exchange scheduling and dispatch core of Mys_Goods_Tool,
a shallow embedding of src/mys_goods_tool/exchange_mode.py in Lean 4.

Python values are modelled as follows: machine floats appearing in the latency
and ping computations become rationals; an optional value becomes an Option;
a function body that can raise becomes an Except returning computation; the
side effects of a function (log lines, callback invocations, scheduler jobs)
become explicit data returned by the embedded function.  The nondeterminism of
random.uniform is resolved by passing the underlying sample u of random.random
(a value in [0, 1)) as an explicit argument, and the current wall clock
environment is passed as the UTC offset of the system timezone.
-/

namespace MysGoodsTool

/-- Modelled from the spec: the account identity part of an ExchangePlan
(class defined in user_data.py, which is not under src/).  Only the field that
exchange_mode.py reads, bbs_uid, is kept. -/
structure Account where
  bbs_uid : String
deriving DecidableEq

/-- Modelled from the spec: the goods descriptor part of an ExchangePlan
(class defined in user_data.py, which is not under src/).  Only the fields that
exchange_mode.py reads are kept: the release timestamp `time` (epoch seconds),
the display name `general_name` and the display time `time_text`. -/
structure Good where
  time : ℤ
  general_name : String
  time_text : String
deriving DecidableEq

/-- Modelled from the spec: an ExchangePlan pairs one account identity with one
goods descriptor (class defined in user_data.py, which is not under src/). -/
structure ExchangePlan where
  account : Account
  good : Good
deriving DecidableEq

/-- Modelled from the spec: ExchangeStatus (class defined in data_model.py,
which is not under src/) is a set of boolean flags describing why an exchange
attempt did or did not succeed.  The nine flags are exactly the attributes that
the chain in `_on_fail` of exchange_mode.py reads, in their source order. -/
structure ExchangeStatus where
  network_error : Bool
  missing_stoken : Bool
  missing_mid : Bool
  missing_address : Bool
  missing_game_uid : Bool
  unsupported_game : Bool
  failed_getting_game_record : Bool
  init_required : Bool
  account_not_found : Bool
deriving DecidableEq

/-- Modelled from the spec: ExchangeResult (class defined in user_data.py,
which is not under src/) holds a back-reference `plan` to the originating plan
and a success boolean; exchange_mode.py reads it as `exchange_result.result`.
A present ExchangeResult object is truthy in Python (per the routing rule of
the spec, presence alone selects the first branch of `if exchange_result:`). -/
structure ExchangeResult where
  result : Bool
  plan : ExchangePlan
deriving DecidableEq

/-- Modelled from the spec: the Preference configuration snapshot fields that
exchange_mode.py reads (class defined in user_data.py, which is not under
src/): timezone, connectivity-probe toggle and interval, and the random-latency
bounds `exchange_latency`.  A timezone is modelled by its UTC offset in
seconds; `timezone` and `connection_test_interval` are Option-valued because
the source falls back to a class-level default via Python `or` when the
configured value is absent. -/
structure Preference where
  timezone : Option ℤ
  enable_connection_test : Bool
  connection_test_interval : Option ℚ
  exchange_latency : ℚ × ℚ
deriving DecidableEq

/-- Modelled from the spec: the class-level default of Preference.timezone
(defined in user_data.py, not under src/), as a UTC offset in seconds.  The
concrete value is immaterial to every claim below; UTC+8 stands in for it. -/
def Preference.timezone_default : ℤ := 28800

/-- Modelled from the spec: the class-level default of
Preference.connection_test_interval (defined in user_data.py, not under src/).
The concrete value is immaterial to every claim below. -/
def Preference.connection_test_interval_default : ℚ := 30

/-- Modelled from the spec: the parts of the process-wide configuration object
`conf` (user_data.py, not under src/) that exchange_mode.py reads: the
preference snapshot and the list of exchange plans. -/
structure Config where
  preference : Preference
  exchange_plans : List ExchangePlan
deriving DecidableEq

/-! ## Outcome classifier (the flag chain inside `_on_fail`) -/

/-- One category per branch of the if/elif chain of `_on_fail`
(exchange_mode.py lines 35 to 54), plus `unknown` for the final else. -/
inductive Category where
  | network_error
  | missing_stoken
  | missing_mid
  | missing_address
  | missing_game_uid
  | unsupported_game
  | failed_getting_game_record
  | init_required
  | account_not_found
  | unknown
deriving DecidableEq, Fintype

/-- The human-readable message each branch of `_on_fail` assigns to `error`
(exchange_mode.py lines 35 to 54). -/
def error_message : Category → String
  | .network_error => "网络错误"
  | .missing_stoken => "商品为游戏内物品，但 Cookies 缺少 stoken"
  | .missing_mid => "商品为游戏内物品，但 stoken 为 'v2' 类型同时 Cookies 缺少 mid"
  | .missing_address => "商品为实体物品，但未配置收货地址"
  | .missing_game_uid => "商品为游戏内物品，但未配置对应游戏的账号UID"
  | .unsupported_game => "暂不支持兑换对应分区/游戏的商品"
  | .failed_getting_game_record => "获取用户 GameRecord 失败"
  | .init_required => "未进行兑换任务初始化"
  | .account_not_found => "账号不存在"
  | .unknown => "未知错误"

/-- The if/elif chain of `_on_fail` (exchange_mode.py lines 35 to 54), with
each branch mapped to its category: first match on the flags in source
order, else `unknown`. -/
def classify (status : ExchangeStatus) : Category :=
  if status.network_error then .network_error
  else if status.missing_stoken then .missing_stoken
  else if status.missing_mid then .missing_mid
  else if status.missing_address then .missing_address
  else if status.missing_game_uid then .missing_game_uid
  else if status.unsupported_game then .unsupported_game
  else if status.failed_getting_game_record then .failed_getting_game_record
  else if status.init_required then .init_required
  else if status.account_not_found then .account_not_found
  else .unknown

/-- The fixed priority order of the flags, as stated by the spec, each paired
with its reader on ExchangeStatus. -/
def flag_priority : List (Category × (ExchangeStatus → Bool)) :=
  [(.network_error, ExchangeStatus.network_error),
   (.missing_stoken, ExchangeStatus.missing_stoken),
   (.missing_mid, ExchangeStatus.missing_mid),
   (.missing_address, ExchangeStatus.missing_address),
   (.missing_game_uid, ExchangeStatus.missing_game_uid),
   (.unsupported_game, ExchangeStatus.unsupported_game),
   (.failed_getting_game_record, ExchangeStatus.failed_getting_game_record),
   (.init_required, ExchangeStatus.init_required),
   (.account_not_found, ExchangeStatus.account_not_found)]

/-- The classifier as the spec words it: the category of the earliest set flag
in the fixed priority order, and `unknown` when no flag is set. -/
def classify_spec (status : ExchangeStatus) : Category :=
  ((flag_priority.find? fun p => p.2 status).map Prod.fst).getD .unknown

/-! ## Log lines and Python exceptions -/

/-- The structured content of the log lines exchange_mode.py emits.  Each
constructor carries exactly the data interpolated into the f-string. -/
inductive LogLine where
  | exchange_failed (bbs_uid : String) (general_name : String) (error : String)
  | exchange_success (bbs_uid : String) (general_name : String)
  | exchange_failed_simple (bbs_uid : String) (general_name : String)
  | timer_triggered (general_name : String) (time_text : String)
  | request_sent (general_name : String) (time_text : String)
  | no_plans_to_execute
  | timer_started
deriving DecidableEq

/-- A Python exception escaping an embedded function body.  `attribute_error`
models the AttributeError raised by reading `.plan` on a None result. -/
inductive PyError where
  | attribute_error
deriving DecidableEq

/-- `_on_fail` (exchange_mode.py lines 34 to 56): resolve the error message
through the flag chain, then log the failure line, which reads
`result.plan.account.bbs_uid` and `result.plan.good.general_name` and hence
raises AttributeError when `result` is None. -/
def _on_fail (status : ExchangeStatus) (result : Option ExchangeResult) :
    Except PyError LogLine :=
  let error := error_message (classify status)
  match result with
  | none => .error .attribute_error
  | some r => .ok (.exchange_failed r.plan.account.bbs_uid r.plan.good.general_name error)

/-! ## Connectivity prober -/

/-- The value ping3.ping returns: None on timeout, False on failure, or the
measured latency in milliseconds. -/
inductive PingOutcome where
  | timeout
  | failure
  | latency (ms : ℚ)
deriving DecidableEq

/-- The single observation `_connection_test` logs. -/
inductive ProbeObservation where
  | timed_out (hostname : String)
  | failed (hostname : String)
  | succeeded (hostname : String) (ms : ℚ)
deriving DecidableEq

/-- Python round-half-to-even on a rational, to the nearest integer. -/
def round_half_even (q : ℚ) : ℤ :=
  if Int.fract q = 1 / 2 then 2 * round (q / 2) else round q

/-- Python round(x, 2): round half to even at two decimal places. -/
def python_round2 (q : ℚ) : ℚ := (round_half_even (q * 100) : ℚ) / 100

/-- `_connection_test` (exchange_mode.py lines 59 to 70): ping the exchange
API host and log exactly one observation.  The hostname (parsed from
URL_EXCHANGE) and the ping outcome are passed as the environment. -/
def _connection_test (hostname : String) (ping_result : PingOutcome) :
    ProbeObservation :=
  match ping_result with
  | .timeout => .timed_out hostname
  | .failure => .failed hostname
  | .latency ms => .succeeded hostname (python_round2 ms)

/-! ## Dispatch unit (`exchange_begin`) -/

/-- One callback invocation performed by the dispatch unit, with the exact
arguments passed (the second argument of either callback is the Optional
ExchangeResult variable of the source). -/
inductive Call where
  | on_success (status : ExchangeStatus) (result : Option ExchangeResult)
  | on_fail (status : ExchangeStatus) (result : Option ExchangeResult)
deriving DecidableEq

/-- CPython random.uniform(a, b) = a + (b - a) * random.random(), where the
underlying sample u of random.random lies in [0, 1). -/
def random_uniform (a b u : ℚ) : ℚ := a + (b - a) * u

/-- The observable effects of one run of the dispatch unit: the sampled
pre-request latency and the callback invocations, in order. -/
structure DispatchTrace where
  latency : ℚ
  calls : List Call
deriving DecidableEq

/-- `exchange_begin` (exchange_mode.py lines 95 to 117).  The environment is
the configuration visible at dispatch time (`conf` is a module global read
inside the body), the sample u of random.random, and the pair
(exchange_status, exchange_result) that `await good_exchange(plan)` resolves
to.  The body samples latency = random.uniform over
conf.preference.exchange_latency, sleeps, and then routes: a truthy (present)
result with a true `result` flag goes to on_success, every other case goes to
on_fail. -/
def exchange_begin (conf : Config) (u : ℚ)
    (resolved : ExchangeStatus × Option ExchangeResult) : DispatchTrace :=
  let (random_x, random_y) := conf.preference.exchange_latency
  let latency := random_uniform random_x random_y u
  let (exchange_status, exchange_result) := resolved
  let calls :=
    match exchange_result with
    | some r =>
        if r.result then [Call.on_success exchange_status (some r)]
        else [Call.on_fail exchange_status (some r)]
    | none => [Call.on_fail exchange_status none]
  ⟨latency, calls⟩

/-! ## Scheduler (`get_scheduler`) -/

/-- An apscheduler trigger: a fixed-interval trigger (seconds), or a one-shot
date trigger whose run_date is a naive local wall-clock instant, modelled as
seconds since the epoch rendered in an unspecified timezone (the scheduler
timezone resolves it to an absolute instant). -/
inductive Trigger where
  | interval (seconds : ℚ)
  | date (run_date : ℤ)
deriving DecidableEq

/-- The callable a job is bound to, with its bound arguments.  The callback
slots are abstract values of type α so that distinct callback functions stay
distinguishable. -/
inductive JobFunc (α : Type) where
  | connection_test
  | exchange (plan : ExchangePlan) (on_success : α) (on_fail : α)
deriving DecidableEq

/-- One registered apscheduler job. -/
structure Job (α : Type) where
  func : JobFunc α
  trigger : Trigger
deriving DecidableEq

/-- The scheduler built by `get_scheduler`: its configured timezone (UTC
offset in seconds) and its job table. -/
structure Scheduler (α : Type) where
  timezone : ℤ
  jobs : List (Job α)
deriving DecidableEq

/-- datetime.fromtimestamp(t) with no tz argument: the epoch instant t
rendered as a naive wall-clock value in the SYSTEM local timezone, i.e.
t + sys_utc_offset when wall-clock values are counted in seconds. -/
def datetime_fromtimestamp (sys_utc_offset : ℤ) (t : ℤ) : ℤ :=
  t + sys_utc_offset

/-- The absolute epoch instant at which a trigger fires: apscheduler
interprets a naive run_date in the scheduler timezone, so a date trigger fires
at run_date - timezone offset.  Interval triggers have no single fire time. -/
def Trigger.fire_epoch (tz_offset : ℤ) : Trigger → Option ℤ
  | .interval _ => none
  | .date run_date => some (run_date - tz_offset)

/-- `get_scheduler` (exchange_mode.py lines 73 to 92): configure the timezone
from the preference (falling back to the class default), register the
connectivity probe as an interval job when enabled, and register one date job
per configured plan, bound to `exchange_begin` with that plan and the two
callbacks, at run_date = datetime.fromtimestamp(plan.good.time). -/
def get_scheduler (conf : Config) (sys_utc_offset : ℤ)
    (on_success on_fail : α) : Scheduler α :=
  let tz := conf.preference.timezone.getD Preference.timezone_default
  let probe_jobs : List (Job α) :=
    if conf.preference.enable_connection_test then
      [⟨.connection_test,
        .interval ((conf.preference.connection_test_interval).getD
          Preference.connection_test_interval_default)⟩]
    else []
  let plan_jobs : List (Job α) := conf.exchange_plans.map fun plan =>
    ⟨.exchange plan on_success on_fail,
     .date (datetime_fromtimestamp sys_utc_offset plan.good.time)⟩
  ⟨tz, probe_jobs ++ plan_jobs⟩

/-- Whether a job is an exchange (one-shot plan) job rather than the probe. -/
def Job.is_exchange {α : Type} : Job α → Bool
  | ⟨.exchange _ _ _, _⟩ => true
  | ⟨.connection_test, _⟩ => false

/-! ## Headless mode driver (`exchange_mode_simple`) -/

/-- Identifiers for the two local callback closures that
`exchange_mode_simple` passes to `get_scheduler`. -/
inductive CbId where
  | simple_on_success
  | simple_on_fail
deriving DecidableEq

/-- The on_success closure of `exchange_mode_simple` (exchange_mode.py lines
129 to 130): logs a success line reading `result.plan.account.bbs_uid` and
`result.plan.good.general_name`, raising AttributeError on a None result. -/
def simple_on_success (_status : ExchangeStatus) (result : Option ExchangeResult) :
    Except PyError LogLine :=
  match result with
  | none => .error .attribute_error
  | some r => .ok (.exchange_success r.plan.account.bbs_uid r.plan.good.general_name)

/-- The on_fail closure of `exchange_mode_simple` (exchange_mode.py lines 132
to 133): logs a failure line reading `result.plan.account.bbs_uid` and
`result.plan.good.general_name`, raising AttributeError on a None result. -/
def simple_on_fail (_status : ExchangeStatus) (result : Option ExchangeResult) :
    Except PyError LogLine :=
  match result with
  | none => .error .attribute_error
  | some r => .ok (.exchange_failed_simple r.plan.account.bbs_uid r.plan.good.general_name)

/-- `exchange_mode_simple` (exchange_mode.py lines 120 to 142), up to the
point where the armed scheduler blocks forever: when the configured plan list
is falsy (empty), log the no-plans line and return with no scheduler built;
otherwise build the scheduler with the two logging callbacks and start it. -/
def exchange_mode_simple (conf : Config) (sys_utc_offset : ℤ) :
    List LogLine × Option (Scheduler CbId) :=
  if conf.exchange_plans.isEmpty then
    ([.no_plans_to_execute], none)
  else
    ([.timer_started],
     some (get_scheduler conf sys_utc_offset CbId.simple_on_success CbId.simple_on_fail))

/-! ## Interactive mode view (`ExchangeModeView`) -/

/-- The text shown before entering exchange mode
(ExchangeModeWarning.ENTER_TEXT). -/
def ENTER_TEXT : String :=
  "确定要[bold]进入[/]兑换模式？进入兑换模式后[bold]无法使用其他功能[/]，定时兑换任务将会启动。你随时都可以退出，但定时任务将会停止。"

/-- The text shown while in exchange mode (ExchangeModeWarning.EXIT_TEXT). -/
def EXIT_TEXT : String :=
  "已进入兑换模式，你可以随时[bold]退出[/]。退出后[bold]定时兑换任务将会停止[/]。"

/-- The two events ExchangeModeView posts to the surrounding UI layer. -/
inductive UiEvent where
  | enter_exchange_mode
  | exit_exchange_mode
deriving DecidableEq

/-- The visible state of ExchangeModeView: which of the two buttons is shown
and the reactive warning text. -/
structure ViewState where
  button_enter_shown : Bool
  button_exit_shown : Bool
  display_text : String
deriving DecidableEq

/-- The initial visible state of ExchangeModeView: the enter button is shown,
the exit button is hidden by the class-level `button_exit.hide()`, and the
warning text starts as ENTER_TEXT. -/
def initial_view : ViewState := ⟨true, false, ENTER_TEXT⟩

/-- `ExchangeModeView._on_button_pressed` (exchange_mode.py lines 207 to 218):
on the enter button, hide enter, show exit, set the warning text to EXIT_TEXT
and post EnterExchangeMode; on the exit button, hide exit, show enter, restore
ENTER_TEXT and post ExitExchangeMode; any other button changes nothing. -/
def _on_button_pressed (st : ViewState) (button_id : String) :
    ViewState × List UiEvent :=
  if button_id = "button-exchange_mode-enter" then
    (⟨false, true, EXIT_TEXT⟩, [.enter_exchange_mode])
  else if button_id = "button-exchange_mode-exit" then
    (⟨true, false, ENTER_TEXT⟩, [.exit_exchange_mode])
  else (st, [])

/-- Pressing a sequence of buttons from a starting state, collecting the
posted events in order. -/
def press_all (st : ViewState) : List String → ViewState × List UiEvent
  | [] => (st, [])
  | b :: bs =>
      let (st1, evs1) := _on_button_pressed st b
      let (st2, evs2) := press_all st1 bs
      (st2, evs1 ++ evs2)

/-! ## Concrete fixtures used by witnesses and counterexamples -/

/-- A concrete account. -/
def account0 : Account := ⟨"114514"⟩

/-- A concrete goods descriptor releasing at epoch second 1000. -/
def good0 : Good := ⟨1000, "goodA", "10:00"⟩

/-- A concrete exchange plan. -/
def plan0 : ExchangePlan := ⟨account0, good0⟩

/-- The ExchangeStatus with no flag set. -/
def status_clear : ExchangeStatus :=
  ⟨false, false, false, false, false, false, false, false, false⟩

/-- A concrete successful exchange result for plan0. -/
def result_ok : ExchangeResult := ⟨true, plan0⟩

/-- A configuration with no plans, probing disabled and a degenerate latency
window. -/
def conf0 : Config := ⟨⟨none, false, none, (0, 0)⟩, []⟩

/-- A configuration whose scheduler timezone (UTC+8) differs from a UTC
system clock: one plan, probing disabled. -/
def conf_c5 : Config := ⟨⟨some 28800, false, none, (0, 0)⟩, [plan0]⟩

/-- A configuration with one plan and latency window [0, 0]. -/
def conf_a : Config := ⟨⟨none, false, none, (0, 0)⟩, [plan0]⟩

/-- Identical to conf_a except for the latency window, which is [5, 5]. -/
def conf_b : Config := ⟨⟨none, false, none, (5, 5)⟩, [plan0]⟩

/-- A configuration with latency window [1, 3] and no plans. -/
def conf_w : Config := ⟨⟨none, false, none, (1, 3)⟩, []⟩

/-- A configuration with an empty plan list but probing enabled. -/
def conf_empty : Config := ⟨⟨none, true, some 30, (1, 2)⟩, []⟩

/-- The condition of the routing rule: the exchange result is present and its
success flag is true. -/
def result_truthy_success : Option ExchangeResult → Bool
  | some x => x.result
  | none => false

/-! ## Theorems -/

/-- C1: for every dispatch of a plan, exchange_begin invokes exactly one of
the two callbacks, exactly once: on_success with (status, result) when the
result is present with a true success flag, and on_fail with (status, result)
in every other case (result absent, or present with success false). -/
theorem C1_exchange_begin_routes_exactly_one_callback (conf : Config) (u : ℚ)
    (s : ExchangeStatus) (r : Option ExchangeResult) :
    (exchange_begin conf u (s, r)).calls.length = 1 ∧
    (exchange_begin conf u (s, r)).calls =
      (if result_truthy_success r then [Call.on_success s r] else [Call.on_fail s r]) := by
  cases r with
  | none => simp [exchange_begin, result_truthy_success]
  | some x =>
      cases hx : x.result <;>
        simp [exchange_begin, result_truthy_success, hx]

/-- C2: when the exchange call resolves to (status, null), exchange_begin does
invoke on_fail once with (status, null), but the failure path does NOT
tolerate the missing result: both `_on_fail` and the on_fail closure of
exchange_mode_simple read `result.plan.account.bbs_uid` on the None result
and raise AttributeError instead of completing their failure log. -/
theorem C2_failure_path_raises_on_missing_result :
    (exchange_begin conf0 0 (status_clear, none)).calls =
      [Call.on_fail status_clear none] ∧
    _on_fail status_clear none = Except.error PyError.attribute_error ∧
    simple_on_fail status_clear none = Except.error PyError.attribute_error :=
  ⟨rfl, rfl, rfl⟩

/-- C3: the flag chain inside `_on_fail` classifies every well-formed
ExchangeStatus into exactly the category of the earliest set flag in the fixed
priority order network_error, missing_stoken, missing_mid, missing_address,
missing_game_uid, unsupported_game, failed_getting_game_record, init_required,
account_not_found, and into `unknown` when no flag is set. -/
theorem C3_classifier_first_match_priority (s : ExchangeStatus) :
    classify s = classify_spec s := by
  obtain ⟨a, b, c, d, e, f, g, h, i⟩ := s
  cases a <;> cases b <;> cases c <;> cases d <;> cases e <;> cases f <;>
    cases g <;> cases h <;> cases i <;> rfl

/-- C4: for a configured jitter window [a, b] with a ≤ b, the pre-request
delay sampled by exchange_begin (random.uniform over the window, with
underlying sample u in [0, 1]) lies in [a, b]; and when a = b the delay is
exactly a, independent of the sample. -/
theorem C4_latency_within_window (conf : Config) (u a b : ℚ)
    (res : ExchangeStatus × Option ExchangeResult)
    (hlat : conf.preference.exchange_latency = (a, b))
    (hab : a ≤ b) (hu0 : 0 ≤ u) (hu1 : u ≤ 1) :
    a ≤ (exchange_begin conf u res).latency ∧
    (exchange_begin conf u res).latency ≤ b ∧
    (a = b → (exchange_begin conf u res).latency = a) := by
  obtain ⟨s, r⟩ := res
  have hl : (exchange_begin conf u (s, r)).latency = a + (b - a) * u := by
    simp [exchange_begin, hlat, random_uniform]
  rw [hl]
  have h1 : 0 ≤ (b - a) * u := mul_nonneg (by linarith) hu0
  have h2 : (b - a) * u ≤ (b - a) * 1 :=
    mul_le_mul_of_nonneg_left hu1 (by linarith)
  refine ⟨by linarith, by linarith, fun hba => ?_⟩
  rw [hba]
  ring

/-- Witness for C4 at the concrete window [1, 3] and sample u = 1/2. -/
theorem C4_latency_witness :
    conf_w.preference.exchange_latency = ((1 : ℚ), (3 : ℚ)) ∧ (1 : ℚ) ≤ 3 ∧
    (0 : ℚ) ≤ 1 / 2 ∧ (1 / 2 : ℚ) ≤ 1 ∧
    (1 ≤ (exchange_begin conf_w (1 / 2) (status_clear, none)).latency ∧
     (exchange_begin conf_w (1 / 2) (status_clear, none)).latency ≤ 3 ∧
     ((1 : ℚ) = 3 →
       (exchange_begin conf_w (1 / 2) (status_clear, none)).latency = 1)) :=
  ⟨rfl, by norm_num, by norm_num, by norm_num,
   C4_latency_within_window conf_w (1 / 2) 1 3 (status_clear, none) rfl
     (by norm_num) (by norm_num) (by norm_num)⟩

/-- Exchange jobs pass the is_exchange filter unchanged. -/
theorem filter_is_exchange_map {α : Type} (plans : List ExchangePlan)
    (so : ℤ) (s f : α) :
    ((plans.map fun plan =>
        (⟨.exchange plan s f,
          .date (datetime_fromtimestamp so plan.good.time)⟩ : Job α)).filter
      Job.is_exchange) =
      plans.map fun plan =>
        ⟨.exchange plan s f, .date (datetime_fromtimestamp so plan.good.time)⟩ := by
  induction plans with
  | nil => rfl
  | cons p ps ih => simp [Job.is_exchange, ih]

/-- C5 (amended): get_scheduler registers exactly one one-shot date job per
configured plan, in plan order, bound to exchange_begin with that plan and the
two callbacks, at run_date datetime.fromtimestamp(plan.good.time) — a naive
wall-clock value in the SYSTEM timezone; since apscheduler resolves that naive
run_date in its configured timezone, the job fires at the plan release epoch
plan.good.time exactly when the system UTC offset equals the configured
timezone offset. -/
theorem C5_one_job_per_plan (conf : Config) (so : ℤ) {α : Type} (s f : α) :
    ((get_scheduler conf so s f).jobs.filter Job.is_exchange =
      conf.exchange_plans.map fun plan =>
        ⟨.exchange plan s f, .date (datetime_fromtimestamp so plan.good.time)⟩) ∧
    (so = (get_scheduler conf so s f).timezone →
      ∀ j ∈ (get_scheduler conf so s f).jobs, ∀ plan s2 f2,
        j.func = .exchange plan s2 f2 →
        j.trigger.fire_epoch (get_scheduler conf so s f).timezone =
          some plan.good.time) := by
  constructor
  · show (Scheduler.jobs _).filter Job.is_exchange = _
    simp only [get_scheduler]
    rw [List.filter_append, filter_is_exchange_map]
    cases hen : conf.preference.enable_connection_test <;>
      simp [Job.is_exchange]
  · intro hso j hj plan s2 f2 hfunc
    have hj2 : j ∈ (if conf.preference.enable_connection_test then
        [(⟨.connection_test,
          .interval ((conf.preference.connection_test_interval).getD
            Preference.connection_test_interval_default)⟩ : Job α)]
      else []) ∨
        j ∈ conf.exchange_plans.map fun plan =>
          (⟨.exchange plan s f,
            .date (datetime_fromtimestamp so plan.good.time)⟩ : Job α) := by
      simpa [get_scheduler] using List.mem_append.mp hj
    rcases hj2 with hj2 | hj2
    · exfalso
      rcases hen : conf.preference.enable_connection_test <;>
        simp [hen] at hj2
      rw [hj2] at hfunc
      exact JobFunc.noConfusion hfunc
    · rcases List.mem_map.mp hj2 with ⟨p, _, hp⟩
      subst hp
      simp only at hfunc
      cases hfunc
      simp [Trigger.fire_epoch, datetime_fromtimestamp, hso.symm]

/-- Counterexample to C5 as stated: with a UTC system clock (offset 0) and the
configured timezone UTC+8, the single job registered for plan0 carries
run_date 1000 (the naive system-local rendering of the release epoch 1000),
which the configured timezone resolves to the absolute epoch -27800, not to
the plan release timestamp 1000. -/
theorem C5_counterexample_tz_mismatch :
    (get_scheduler conf_c5 0 CbId.simple_on_success CbId.simple_on_fail).jobs =
      [⟨JobFunc.exchange plan0 CbId.simple_on_success CbId.simple_on_fail,
        Trigger.date 1000⟩] ∧
    ((get_scheduler conf_c5 0 CbId.simple_on_success CbId.simple_on_fail).jobs.map
        fun j => j.trigger.fire_epoch
          (get_scheduler conf_c5 0 CbId.simple_on_success CbId.simple_on_fail).timezone) =
      [some (-27800)] ∧
    plan0.good.time = 1000 ∧ some (-27800 : ℤ) ≠ some (1000 : ℤ) := by
  refine ⟨rfl, rfl, rfl, by decide⟩

/-- Counterexample to C6 as stated: conf_a and conf_b agree on every
preference field get_scheduler reads (and on the plan list), so they build
identical schedulers; yet a dispatch running while conf_a is the visible
configuration sleeps 0 seconds where one running under conf_b sleeps 5,
because exchange_begin reads conf.preference.exchange_latency at dispatch
time. -/
theorem C6_counterexample_dispatch_reads_live_config :
    get_scheduler conf_a 0 CbId.simple_on_success CbId.simple_on_fail =
      get_scheduler conf_b 0 CbId.simple_on_success CbId.simple_on_fail ∧
    (exchange_begin conf_a 0 (status_clear, none)).latency = 0 ∧
    (exchange_begin conf_b 0 (status_clear, none)).latency = 5 ∧
    (exchange_begin conf_a 0 (status_clear, none)).latency ≠
      (exchange_begin conf_b 0 (status_clear, none)).latency := by
  have ha : (exchange_begin conf_a 0 (status_clear, none)).latency = 0 := by
    norm_num [exchange_begin, random_uniform, conf_a]
  have hb : (exchange_begin conf_b 0 (status_clear, none)).latency = 5 := by
    norm_num [exchange_begin, random_uniform, conf_b]
  refine ⟨rfl, ha, hb, ?_⟩
  rw [ha, hb]
  norm_num

/-- C6 (amended): the preference fields read at scheduler-build time are only
the timezone, the connectivity-probe toggle and interval (plus the plan list):
two configurations agreeing on those build identical schedulers regardless of
their jitter bounds.  The jitter bounds themselves are NOT part of the build
snapshot: every dispatch samples its latency from the exchange_latency window
of the configuration visible at dispatch time. -/
theorem C6_build_snapshot_excludes_latency {α : Type} (ca cb : Config)
    (so : ℤ) (s f : α)
    (htz : ca.preference.timezone = cb.preference.timezone)
    (hen : ca.preference.enable_connection_test =
      cb.preference.enable_connection_test)
    (hiv : ca.preference.connection_test_interval =
      cb.preference.connection_test_interval)
    (hpl : ca.exchange_plans = cb.exchange_plans) :
    get_scheduler ca so s f = get_scheduler cb so s f ∧
    ∀ c : Config, ∀ u : ℚ, ∀ res : ExchangeStatus × Option ExchangeResult,
      (exchange_begin c u res).latency =
        random_uniform c.preference.exchange_latency.1
          c.preference.exchange_latency.2 u := by
  constructor
  · simp [get_scheduler, htz, hen, hiv, hpl]
  · intro c u res
    obtain ⟨s2, r2⟩ := res
    rcases hc : c.preference.exchange_latency with ⟨x, y⟩
    simp [exchange_begin, hc]

/-- Witness for C6 (amended) at the concrete pair conf_a, conf_b. -/
theorem C6_build_snapshot_witness :
    conf_a.preference.timezone = conf_b.preference.timezone ∧
    conf_a.preference.enable_connection_test =
      conf_b.preference.enable_connection_test ∧
    conf_a.preference.connection_test_interval =
      conf_b.preference.connection_test_interval ∧
    conf_a.exchange_plans = conf_b.exchange_plans ∧
    (get_scheduler conf_a 0 CbId.simple_on_success CbId.simple_on_fail =
       get_scheduler conf_b 0 CbId.simple_on_success CbId.simple_on_fail ∧
     ∀ c : Config, ∀ u : ℚ, ∀ res : ExchangeStatus × Option ExchangeResult,
       (exchange_begin c u res).latency =
         random_uniform c.preference.exchange_latency.1
           c.preference.exchange_latency.2 u) :=
  ⟨rfl, rfl, rfl, rfl,
   C6_build_snapshot_excludes_latency conf_a conf_b 0 CbId.simple_on_success
     CbId.simple_on_fail rfl rfl rfl rfl⟩

/-- C7: with an empty configured plan list, the headless driver logs the
no-plans line and returns at once: no scheduler is built, hence no job is
registered and neither callback can ever be invoked. -/
theorem C7_no_plans_noop (conf : Config) (so : ℤ)
    (h : conf.exchange_plans = []) :
    exchange_mode_simple conf so = ([LogLine.no_plans_to_execute], none) := by
  simp [exchange_mode_simple, h]

/-- Witness for C7 at a concrete plan-free configuration. -/
theorem C7_no_plans_witness :
    conf_empty.exchange_plans = [] ∧
    exchange_mode_simple conf_empty 0 = ([LogLine.no_plans_to_execute], none) :=
  ⟨rfl, C7_no_plans_noop conf_empty 0 rfl⟩

/-- C8: for every outcome of the underlying ping call, the connectivity
prober emits exactly one of three observations — timed out exactly when ping
returned None, failed exactly when ping returned False, and otherwise
succeeded with the latency rounded to 2 decimal places (an integer number of
hundredths).  The embedded `_connection_test` is a total function, so no probe
outcome raises. -/
theorem C8_connection_test_trichotomy (host : String) (r : PingOutcome) :
    (_connection_test host r = ProbeObservation.timed_out host ↔
      r = PingOutcome.timeout) ∧
    (_connection_test host r = ProbeObservation.failed host ↔
      r = PingOutcome.failure) ∧
    (∀ ms, r = PingOutcome.latency ms →
      _connection_test host r =
        ProbeObservation.succeeded host (python_round2 ms) ∧
      ∃ k : ℤ, python_round2 ms = (k : ℚ) / 100) := by
  refine ⟨?_, ?_, ?_⟩
  · cases r <;> simp [_connection_test]
  · cases r <;> simp [_connection_test]
  · intro ms hms
    subst hms
    exact ⟨rfl, round_half_even (ms * 100), rfl⟩

/-- Witness for C8 applied at a concrete measured latency. -/
theorem C8_connection_test_witness :
    _connection_test "api-takumi.mihoyo.com"
        (PingOutcome.latency (15505 / 1000)) =
      ProbeObservation.succeeded "api-takumi.mihoyo.com"
        (python_round2 (15505 / 1000)) ∧
    ∃ k : ℤ, python_round2 ((15505 : ℚ) / 1000) = (k : ℚ) / 100 :=
  (C8_connection_test_trichotomy "api-takumi.mihoyo.com"
      (PingOutcome.latency (15505 / 1000))).2.2 (15505 / 1000) rfl

/-- C9: from the initial view state, pressing the enter button and then the
exit button posts exactly the events EnterExchangeMode then ExitExchangeMode,
in that order, and returns the view to its initial visible state: enter button
shown, exit button hidden, warning text back to its pre-entry value. -/
theorem C9_enter_exit_roundtrip :
    press_all initial_view
        ["button-exchange_mode-enter", "button-exchange_mode-exit"] =
      (initial_view,
       [UiEvent.enter_exchange_mode, UiEvent.exit_exchange_mode]) := by
  rfl

/-- C10: invariant of the dispatch unit — whenever exchange_begin invokes
on_success with some (status, result) pair, the result argument is present and
its success flag is true, so success callbacks may dereference it without a
null check. -/
theorem C10_on_success_requires_present_successful_result (conf : Config)
    (u : ℚ) (s s2 : ExchangeStatus) (r r2 : Option ExchangeResult)
    (h : Call.on_success s2 r2 ∈ (exchange_begin conf u (s, r)).calls) :
    ∃ x, r2 = some x ∧ x.result = true := by
  cases r with
  | none => simp [exchange_begin] at h
  | some x =>
      cases hx : x.result with
      | false => simp [exchange_begin, hx] at h
      | true =>
          simp [exchange_begin, hx] at h
          exact ⟨x, h.2, hx⟩

/-- Witness for C10 at a concrete successful dispatch. -/
theorem C10_on_success_witness :
    Call.on_success status_clear (some result_ok) ∈
      (exchange_begin conf0 0 (status_clear, some result_ok)).calls ∧
    ∃ x, (some result_ok : Option ExchangeResult) = some x ∧
      x.result = true :=
  ⟨by decide,
   C10_on_success_requires_present_successful_result conf0 0 status_clear
     status_clear (some result_ok) (some result_ok) (by decide)⟩

end MysGoodsTool
